import Mathlib

/-!
Verification development for `quicklauncher_py/search.py` (QuickLauncher).

The module under study is a thin wrapper around the Whoosh search library:
`SearchEngine` holds an optional directory and an optional in-memory index
handle (`self._ix`), and exposes `create_index`, `load_index`, `has_index`,
`index_directory`, `add_documents` and `search`.

The embedding below translates the Python code into Lean.  The Whoosh
library itself is external to the repository; the parts of its contract the
code relies on are modelled here from the library's documented behaviour:

* the index is a sequence of documents in insertion (docnum) order, with
  `update_document` deleting any existing document carrying the same unique
  `path` key and appending the new one (schema `path=ID(unique=True)`);
* `TEXT` fields are analysed with the standard analyzer: tokens are maximal
  matches of the regex `\w+(\.?\w+)*`, lower-cased, with stop words and
  tokens shorter than two characters removed;
* `ID` fields (here `path`) are indexed as the whole untokenized string;
* `MultifieldParser(["title", "path"])` turns each whitespace-separated
  word of the query into a disjunction of per-field terms and conjoins the
  words; the parse failure the code guards against with `try/except` is
  modelled by the unterminated-quote case;
* `searcher.search(q, limit=limit)` returns the matching documents ranked
  by descending score, ties in docnum order, truncated to `limit`.
-/

/-- A document record as committed to the index: the dictionaries built in
`index_directory` and consumed by `add_documents` have exactly the keys
`path`, `title`, `content` (search.py lines 92-96, 116-129). -/
structure Doc where
  path : String
  title : String
  content : String
deriving DecidableEq

/-- Python's `\w` on the ASCII range: letters, digits and underscore. -/
def isWordChar (c : Char) : Bool := c.isAlphanum || c == '_'

/-- Close the token accumulator: emit the accumulated (reversed) token if
it is nonempty. -/
def closeTok (acc : List Char) : List (List Char) :=
  if acc.isEmpty then [] else [acc.reverse]

/-- One pass of Whoosh's default `RegexTokenizer` pattern `\w+(\.?\w+)*`:
a token is a run of word characters in which a single dot may occur only
between word characters (so `b_renamed.txt` is ONE token, and `report.pdf`
is ONE token).  `acc` is the current token reversed; the `Nat` argument is
fuel, always at least the length of the remaining input plus one, so the
fuel-exhausted branch is never taken. -/
def tokLoop : Nat → List Char → List Char → List (List Char)
  | 0, acc, _ => closeTok acc
  | _ + 1, acc, [] => closeTok acc
  | fuel + 1, acc, '.' :: c :: cs =>
      if !acc.isEmpty && isWordChar c then tokLoop fuel (c :: '.' :: acc) cs
      else closeTok acc ++ tokLoop fuel [] (c :: cs)
  | fuel + 1, acc, c :: cs =>
      if isWordChar c then tokLoop fuel (c :: acc) cs
      else closeTok acc ++ tokLoop fuel [] cs

/-- Tokenize a character list with the default Whoosh regex. -/
def tokenizeChars (s : List Char) : List (List Char) :=
  tokLoop (s.length + 1) [] s

/-- Whoosh's `STOP_WORDS`, removed from `TEXT` field token streams by the
standard analyzer's stop filter. -/
def STOP_WORDS : List String :=
  ["a", "an", "and", "are", "as", "at", "be", "by", "can", "for", "from",
   "have", "if", "in", "is", "it", "may", "not", "of", "on", "or", "tbd",
   "that", "the", "this", "to", "us", "we", "when", "will", "with", "yet",
   "you", "your"]

/-- The standard analyzer applied to a `TEXT` field value (used for the
`title` field, both at indexing time and on query words): regex
tokenization, lower-casing, and the stop filter (drops stop words and
tokens shorter than two characters). -/
def wtokens (s : String) : List String :=
  ((tokenizeChars s.data).map (fun t => String.mk (t.map Char.toLower))).filter
    (fun t => decide (2 ≤ t.length) && !STOP_WORDS.contains t)

/-- Number of double-quote characters in a string. -/
def countQuotes (s : String) : Nat := s.data.countP (fun c => c == '"')

/-- Split a character list on whitespace; `acc` is the current word
reversed. -/
def splitUnitsAux : List Char → List Char → List String
  | acc, [] => if acc.isEmpty then [] else [String.mk acc.reverse]
  | acc, c :: cs =>
      if c.isWhitespace then
        (if acc.isEmpty then [] else [String.mk acc.reverse]) ++ splitUnitsAux [] cs
      else splitUnitsAux (c :: acc) cs

/-- The whitespace-separated words of a string. -/
def splitUnits (s : String) : List String := splitUnitsAux [] s.data

/-- Model of `MultifieldParser(["title", "path"], schema).parse(query)`
(search.py line 148-150).  The result is the list of query words; `none`
models the exception path the code catches (`except Exception: return []`),
triggered here by an unterminated quoted phrase — the malformed-query shape
the surrounding project documents.  A well-formed quoted phrase is modelled
as the conjunction of its words. -/
def parseQuery (q : String) : Option (List String) :=
  if countQuotes q % 2 = 1 then none
  else some (splitUnits (String.mk (q.data.filter (fun c => c != '"'))))

/-- Whether one query word matches a document: the word's `title`-field
terms (its analysed tokens) hit one of the document's title tokens, or the
word equals the document's `path` (an `ID` field is matched untokenized).
This is the `Or` of per-field terms that `MultifieldParser` builds for a
fieldless word. -/
def unitMatchDoc (u : String) (d : Doc) : Bool :=
  (wtokens u).any (fun t => (wtokens d.title).contains t) || d.path == u

/-- Whether a parsed query matches a document: all words must match (the
parser's default `AndGroup`); the empty query is Whoosh's null query and
matches nothing. -/
def matchesQuery (units : List String) (d : Doc) : Bool :=
  !units.isEmpty && units.all (fun u => unitMatchDoc u d)

/-- Relevance score of a document for a parsed query, modelling the ranking
only to the granularity the ordering contract needs: one point per query
word matching in `title` plus one per word matching `path`. -/
def docScore (units : List String) (d : Doc) : Nat :=
  units.countP (fun u => (wtokens u).any (fun t => (wtokens d.title).contains t)) +
    units.countP (fun u => d.path == u)

/-- A ranked hit: `(score, docnum, document)`. -/
abbrev Hit := Nat × Nat × Doc

/-- Whoosh's result order: higher score first, ties by ascending docnum
(insertion order). -/
def hitOrder (a b : Hit) : Prop :=
  b.1 < a.1 ∨ (a.1 = b.1 ∧ a.2.1 ≤ b.2.1)

instance : DecidableRel hitOrder := fun a b =>
  inferInstanceAs (Decidable (b.1 < a.1 ∨ (a.1 = b.1 ∧ a.2.1 ≤ b.2.1)))

instance : IsTotal Hit hitOrder :=
  ⟨fun a b => by
    rcases Nat.lt_trichotomy a.1 b.1 with h | h | h
    · exact Or.inr (Or.inl h)
    · rcases Nat.le_total a.2.1 b.2.1 with h2 | h2
      · exact Or.inl (Or.inr ⟨h, h2⟩)
      · exact Or.inr (Or.inr ⟨h.symm, h2⟩)
    · exact Or.inl (Or.inl h)⟩

instance : IsTrans Hit hitOrder :=
  ⟨fun a b c hab hbc => by
    rcases hab with h1 | ⟨h1, h1d⟩ <;> rcases hbc with h2 | ⟨h2, h2d⟩
    · exact Or.inl (h2.trans h1)
    · exact Or.inl (h2 ▸ h1)
    · exact Or.inl (h2.trans_eq h1.symm)
    · exact Or.inr ⟨h1.trans h2, h1d.trans h2d⟩⟩

/-- The ranked hit list for a parsed query against the documents of a
loaded index (in docnum order): the matching documents, scored, sorted by
`hitOrder` — the model of `searcher.search(q, ...)` before the `limit`
truncation. -/
def rankedHits (docs : List Doc) (units : List String) : List Hit :=
  List.insertionSort hitOrder
    (((docs.enum).filter (fun p => matchesQuery units p.2)).map
      (fun p => (docScore units p.2, p.1, p.2)))

/-- The Python dictionaries returned by `search` are modelled as
association lists from key to value, so that key presence is a provable
property rather than a typing artefact. -/
abbrev Dict := List (String × String)

/-- Look up a key in a result dictionary. -/
def dictFind (d : Dict) (k : String) : Option String :=
  (d.find? (fun p => p.1 == k)).map (fun p => p.2)

/-- The dictionary built from a hit (search.py line 155):
`{"title": hit.get("title", ""), "path": hit["path"]}` — both fields are
stored by the schema, so the stored values are returned. -/
def hitDict (h : Hit) : Dict :=
  [("title", h.2.2.title), ("path", h.2.2.path)]

/-- Errors the Python methods can raise, by exception class. -/
inductive EngineError where
  | importError
  | valueError
  | runtimeError
  | ioError
deriving DecidableEq

/-- On-disk state of the index location: no index present, a valid index
holding the given committed documents, or files that exist but do not
parse as a Whoosh index. -/
inductive StoreOnDisk where
  | absent
  | valid (docs : List Doc)
  | corrupt
deriving DecidableEq

/-- The ambient environment of the module: whether the `whoosh` import
succeeded (module global `index`, search.py lines 15-20), whether the index
location is writable, and what is on disk there. -/
structure World where
  whoosh : Bool
  writable : Bool
  store : StoreOnDisk
deriving DecidableEq

/-- The `SearchEngine` object state: `index_dir` and the in-memory handle
`self._ix`, modelled as the committed documents in docnum order when an
index is open. -/
structure SearchEngine where
  index_dir : Option String
  ix : Option (List Doc)
deriving DecidableEq

/-- `SearchEngine.has_index` (search.py lines 41-44): true iff an index is
loaded in memory. -/
def SearchEngine.has_index (e : SearchEngine) : Bool := e.ix.isSome

/-- `SearchEngine.search` (search.py lines 132-155).  The first argument is
the module global `index` (`true` iff Whoosh imported).  If no index is
loaded or Whoosh is unavailable, a single placeholder dictionary is
returned; otherwise the query is parsed (a parse exception yields `[]`) and
the ranked hits, truncated to `limit`, are converted to dictionaries. -/
def SearchEngine.search (wh : Bool) (e : SearchEngine) (q : String) (limit : Nat) :
    List Dict :=
  match e.ix, wh with
  | some docs, true =>
      match parseQuery q with
      | none => []
      | some units => ((rankedHits docs units).take limit).map hitDict
  | _, _ => [[("title", "(no index) You searched for: " ++ q), ("path", "")]]

/-- Whoosh's `writer.update_document` under a schema whose `path` field is
`ID(unique=True)` (search.py lines 127-129): any existing document with the
same `path` is deleted and the new document is appended. -/
def update_document (ix : List Doc) (d : Doc) : List Doc :=
  ix.filter (fun x => x.path ≠ d.path) ++ [d]

/-- `SearchEngine.add_documents` (search.py lines 116-130): raises
`RuntimeError` if no index is loaded, otherwise upserts each document of
the batch in order and commits. -/
def SearchEngine.add_documents (e : SearchEngine) (documents : List Doc) :
    Except EngineError SearchEngine :=
  match e.ix with
  | none => .error .runtimeError
  | some ix => .ok { e with ix := some (documents.foldl update_document ix) }

/-- `SearchEngine.create_index` (search.py lines 55-68): `ImportError` if
Whoosh is missing, `ValueError` if no directory is configured, a propagated
`OSError` if the location is not writable; otherwise
`index.create_in(self.index_dir, schema)` replaces whatever is at the
location with a fresh empty index and loads it. -/
def SearchEngine.create_index (e : SearchEngine) (w : World) :
    Except EngineError (SearchEngine × World) :=
  if w.whoosh = false then .error .importError
  else if e.index_dir = none then .error .valueError
  else if w.writable = false then .error .ioError
  else .ok ({ e with ix := some [] }, { w with store := .valid [] })

/-- `SearchEngine.load_index` (search.py lines 100-114): `ImportError` if
Whoosh is missing (raised before the `try`), no-op if no directory is
configured; otherwise `index.open_dir` succeeds exactly when a valid index
is on disk, and any exception (absent directory, empty directory, corrupt
files) is caught, leaving `self._ix = None`. -/
def SearchEngine.load_index (e : SearchEngine) (w : World) :
    Except EngineError SearchEngine :=
  if w.whoosh = false then .error .importError
  else if e.index_dir = none then .ok e
  else match w.store with
    | .valid docs => .ok { e with ix := some docs }
    | _ => .ok { e with ix := none }

/-- `SearchEngine.__init__` (search.py lines 26-39): records `index_dir`,
starts with `self._ix = None`, and calls `load_index` when a directory was
given. -/
def SearchEngine.init (index_dir : Option String) (w : World) :
    Except EngineError SearchEngine :=
  let e : SearchEngine := { index_dir := index_dir, ix := none }
  match index_dir with
  | none => .ok e
  | some _ => e.load_index w

/-- A filesystem entry: a regular file or a directory with children.  The
entries listed by `os.walk` are modelled as exactly these, so the
`os.path.isfile` re-check in `index_directory` (search.py line 90, which
skips entries that stopped being regular files) never fires in the
model. -/
inductive FsEntry where
  | file (name : String)
  | dir (name : String) (children : List FsEntry)

/-- `os.path.join` with POSIX separator. -/
def joinPath (a b : String) : String := a ++ "/" ++ b

/-- Names of the directory children (the `dirnames` component of an
`os.walk` triple). -/
def dirNamesOf (cs : List FsEntry) : List String :=
  cs.filterMap (fun e => match e with | .dir n _ => some n | .file _ => none)

/-- Names of the regular-file children (the `filenames` component of an
`os.walk` triple). -/
def fileNamesOf (cs : List FsEntry) : List String :=
  cs.filterMap (fun e => match e with | .file n => some n | .dir _ _ => none)

/-- The `os.walk` triples produced below the given level: one triple per
descendant directory, top-down, a directory's own triple preceding its
subtree's. -/
def walkSubdirs (p : String) : List FsEntry → List (String × List String × List String)
  | [] => []
  | .file _ :: rest => walkSubdirs p rest
  | .dir n cs :: rest =>
      (joinPath p n, dirNamesOf cs, fileNamesOf cs) ::
        (walkSubdirs (joinPath p n) cs ++ walkSubdirs p rest)

/-- `os.walk(directory)`: the root directory is represented by its path and
its children when accessible; an inaccessible or missing root is `none`, in
which case `os.walk` (with its default `onerror=None`) silently yields
nothing. -/
def osWalk (directory : String) (fs : Option (List FsEntry)) :
    List (String × List String × List String) :=
  match fs with
  | none => []
  | some children =>
      (directory, dirNamesOf children, fileNamesOf children) ::
        walkSubdirs directory children

/-- The documents built from one `os.walk` triple (search.py lines 87-96):
one per file name, `path` joined from the root, `title` the file name,
`content` empty. -/
def tripleDocs (t : String × List String × List String) : List Doc :=
  t.2.2.map (fun fname => { path := joinPath t.1 fname, title := fname, content := "" })

/-- The full document batch gathered by `index_directory`'s crawl loop. -/
def crawlDocs (directory : String) (fs : Option (List FsEntry)) : List Doc :=
  (osWalk directory fs).flatMap tripleDocs

/-- `SearchEngine.index_directory` (search.py lines 70-98): `RuntimeError`
if no index is loaded; otherwise crawl the tree and, only when the batch is
nonempty, commit it via `add_documents`. -/
def SearchEngine.index_directory (e : SearchEngine) (directory : String)
    (fs : Option (List FsEntry)) : Except EngineError SearchEngine :=
  match e.ix with
  | none => .error .runtimeError
  | some _ =>
      let documents := crawlDocs directory fs
      if documents.isEmpty then .ok e
      else e.add_documents documents

/-- `isFileAt p cs q n` holds when the tree whose level-`p` children are
`cs` contains a regular file named `n` at absolute path `q`.  This is the
specification-side description of the regular files of a tree, independent
of the walk implementation. -/
inductive isFileAt : String → List FsEntry → String → String → Prop
  | here {p : String} {cs : List FsEntry} {n : String} :
      FsEntry.file n ∈ cs → isFileAt p cs (joinPath p n) n
  | deeper {p : String} {cs : List FsEntry} {m : String} {cs2 : List FsEntry}
      {q n : String} :
      FsEntry.dir m cs2 ∈ cs → isFileAt (joinPath p m) cs2 q n → isFileAt p cs q n

/-- Concrete document of scenario C, first commit. -/
def docB1 : Doc := { path := "/a/b.txt", title := "b.txt", content := "" }

/-- Concrete document of scenario C, second commit (same path, new title). -/
def docB2 : Doc := { path := "/a/b.txt", title := "b_renamed.txt", content := "" }

/-- An engine holding a freshly created (empty) index. -/
def engineIx0 : SearchEngine := { index_dir := some "/i", ix := some [] }

/-- The engine after committing `docB1` to `engineIx0`. -/
def engineB1 : SearchEngine := { index_dir := some "/i", ix := some [docB1] }

/-- The engine after further committing `docB2`: the record for
`/a/b.txt` has been replaced, not duplicated. -/
def engineB2 : SearchEngine := { index_dir := some "/i", ix := some [docB2] }

/-- An engine with no loaded index. -/
def engineNoIx : SearchEngine := { index_dir := none, ix := none }

/-- Two equal-scoring documents committed in path-descending order. -/
def engineZA : SearchEngine :=
  { index_dir := some "/i",
    ix := some [{ path := "/z", title := "foo", content := "" },
                { path := "/a", title := "foo", content := "" }] }

/-- Extending the child list of a level preserves the files found there. -/
theorem isFileAt_mono {p : String} {cs cs2 : List FsEntry} {q n : String}
    (hsub : ∀ x ∈ cs, x ∈ cs2) (h : isFileAt p cs q n) : isFileAt p cs2 q n := by
  cases h with
  | here hmem => exact .here (hsub _ hmem)
  | deeper hmem hdeep => exact .deeper (hsub _ hmem) hdeep

/-- A name in the `filenames` component of a walk triple comes from a
regular-file child. -/
theorem file_mem_of_fileNames {n : String} {cs : List FsEntry}
    (h : n ∈ fileNamesOf cs) : FsEntry.file n ∈ cs := by
  unfold fileNamesOf at h
  rcases List.mem_filterMap.mp h with ⟨e, he, hmatch⟩
  cases e with
  | file m => cases Option.some.inj hmatch; exact he
  | dir m cs2 => cases hmatch

/-- Every document built from the walk below a level is a regular file of
that level's subtree and has empty content. -/
theorem crawlSubdirs_only_files : ∀ (p : String) (cs : List FsEntry) (d : Doc),
    d ∈ (walkSubdirs p cs).flatMap tripleDocs →
    isFileAt p cs d.path d.title ∧ d.content = ""
  | p, [], d, hm => by simp [walkSubdirs] at hm
  | p, .file n :: rest, d, hm => by
      simp only [walkSubdirs] at hm
      have ih := crawlSubdirs_only_files p rest d hm
      exact ⟨isFileAt_mono (fun x hx => List.mem_cons_of_mem _ hx) ih.1, ih.2⟩
  | p, .dir n cs2 :: rest, d, hm => by
      simp only [walkSubdirs, List.flatMap_cons, List.flatMap_append,
        List.mem_append] at hm
      rcases hm with h | h | h
      · unfold tripleDocs at h
        rcases List.mem_map.mp h with ⟨fname, hf, rfl⟩
        exact ⟨.deeper (List.mem_cons_self _ _)
          (.here (file_mem_of_fileNames hf)), rfl⟩
      · have ih := crawlSubdirs_only_files (joinPath p n) cs2 d h
        exact ⟨.deeper (List.mem_cons_self _ _) ih.1, ih.2⟩
      · have ih := crawlSubdirs_only_files p rest d h
        exact ⟨isFileAt_mono (fun x hx => List.mem_cons_of_mem _ hx) ih.1, ih.2⟩
termination_by p cs d _ => sizeOf cs

/-- Every dictionary returned by `search` is either the placeholder for the
query or the dictionary of a ranked hit. -/
theorem search_mem_shape (wh : Bool) (e : SearchEngine) (q : String) (limit : Nat)
    (r : Dict) (hr : r ∈ SearchEngine.search wh e q limit) :
    r = [("title", "(no index) You searched for: " ++ q), ("path", "")] ∨
      ∃ h : Hit, r = hitDict h := by
  unfold SearchEngine.search at hr
  split at hr
  · split at hr
    · simp at hr
    · rcases List.mem_map.mp hr with ⟨h, _, rfl⟩
      exact Or.inr ⟨h, rfl⟩
  · exact Or.inl (List.mem_singleton.mp hr)

/-- C1: for every query string `q`, calling `search(q, limit)` when no
index is loaded returns exactly one synthetic result whose title contains
the literal query text `q` and whose path is the empty string, and it does
not raise (the function is total and returns the list directly). -/
theorem search_no_index_placeholder (wh : Bool) (e : SearchEngine) (q : String)
    (limit : Nat) (h : e.ix = none) :
    ∃ r : Dict, SearchEngine.search wh e q limit = [r] ∧
      dictFind r "path" = some "" ∧
      ∃ pre suf, dictFind r "title" = some (pre ++ q ++ suf) := by
  refine ⟨[("title", "(no index) You searched for: " ++ q), ("path", "")],
    ?_, rfl, "(no index) You searched for: ", "", ?_⟩
  · unfold SearchEngine.search
    rw [h]
  · rw [String.append_empty]
    rfl

/-- Witness for C1 at the concrete query of scenario B. -/
theorem search_no_index_placeholder_witness :
    engineNoIx.ix = none ∧
    ∃ r : Dict, SearchEngine.search true engineNoIx "anything" 10 = [r] ∧
      dictFind r "path" = some "" ∧
      ∃ pre suf, dictFind r "title" = some (pre ++ "anything" ++ suf) :=
  ⟨rfl, search_no_index_placeholder true engineNoIx "anything" 10 rfl⟩

/-- C3: for every query whose parse fails, `search` on a loaded index
returns the empty result sequence; the exception is caught (search.py
lines 149-152), never propagated. -/
theorem search_parse_failure_empty (e : SearchEngine) (docs : List Doc)
    (q : String) (limit : Nat) (h : e.ix = some docs)
    (hp : parseQuery q = none) :
    SearchEngine.search true e q limit = [] := by
  unfold SearchEngine.search
  rw [h, hp]

/-- Witness for C3: an unterminated quoted phrase against a populated
index. -/
theorem search_parse_failure_empty_witness :
    engineB1.ix = some [docB1] ∧ parseQuery "\"b.txt" = none ∧
    SearchEngine.search true engineB1 "\"b.txt" 10 = [] :=
  ⟨rfl, by decide, search_parse_failure_empty engineB1 [docB1] "\"b.txt" 10 rfl (by decide)⟩

/-- C10: every element of the sequence returned by `search`, in every
branch (placeholder, parse failure, hits), carries both a `title` and a
`path` key, so a consumer may read `result["title"]` and `result["path"]`
unconditionally. -/
theorem search_results_have_title_path (wh : Bool) (e : SearchEngine)
    (q : String) (limit : Nat) :
    ∀ r ∈ SearchEngine.search wh e q limit,
      (dictFind r "title").isSome = true ∧ (dictFind r "path").isSome = true := by
  intro r hr
  rcases search_mem_shape wh e q limit r hr with h | ⟨hit, h⟩ <;> subst h
  · exact ⟨rfl, rfl⟩
  · exact ⟨rfl, rfl⟩

/-- Witness for C10 at the placeholder branch. -/
theorem search_results_have_title_path_witness :
    ([("title", "(no index) You searched for: x"), ("path", "")] : Dict) ∈
      SearchEngine.search true engineNoIx "x" 10 ∧
    (dictFind [("title", "(no index) You searched for: x"), ("path", "")] "title").isSome = true ∧
    (dictFind [("title", "(no index) You searched for: x"), ("path", "")] "path").isSome = true := by
  have hm : ([("title", "(no index) You searched for: x"), ("path", "")] : Dict) ∈
      SearchEngine.search true engineNoIx "x" 10 := by decide
  exact ⟨hm, search_results_have_title_path true engineNoIx "x" 10 _ hm⟩

/-- C2 counterexample: run scenario C — commit `docB1`, then commit `docB2`
with the same path — and search for `"b_renamed"`: the result is empty, not
exactly one document, because the title of the replacing record is indexed
as the single token `b_renamed.txt`, which the query term `b_renamed` does
not match. -/
theorem search_b_renamed_finds_nothing :
    engineIx0.add_documents [docB1] = .ok engineB1 ∧
    engineB1.add_documents [docB2] = .ok engineB2 ∧
    SearchEngine.search true engineB2 "b_renamed" 10 = [] ∧
    (SearchEngine.search true engineB2 "b_renamed" 10).length ≠ 1 := by
  refine ⟨rfl, rfl, ?_, ?_⟩ <;> decide

/-- C2 (amended): committing a document with the same path key twice
replaces the prior record rather than duplicating it — after the two
commits of scenario C the index holds exactly one document, at `/a/b.txt`
with the new title; a search for the old title `"b.txt"` returns nothing;
committing the identical batch again leaves the index (hence all search
results) unchanged.  However the search for `"b_renamed"` also returns
nothing (see the counterexample), since the stored title is indexed as a
single token. -/
theorem add_documents_upsert_scenario :
    engineIx0.add_documents [docB1] = .ok engineB1 ∧
    engineB1.add_documents [docB2] = .ok engineB2 ∧
    engineB2.ix = some [docB2] ∧
    engineB1.ix = some [docB1] ∧
    SearchEngine.search true engineB1 "b.txt" 10 =
      [[("title", "b.txt"), ("path", "/a/b.txt")]] ∧
    SearchEngine.search true engineB2 "b.txt" 10 = [] ∧
    engineB2.add_documents [docB2] = .ok engineB2 := by
  refine ⟨rfl, rfl, rfl, rfl, ?_, ?_, rfl⟩ <;> decide

/-- C4 counterexample: with no loaded index and `limit = 0` the placeholder
result exceeds the limit; and on two equal-scoring documents committed in
path-descending order the ties come out in insertion (docnum) order `/z`
before `/a`, not in path-ascending order. -/
theorem search_limit_order_counterexample :
    (SearchEngine.search true engineNoIx "x" 0).length = 1 ∧
    ¬ (SearchEngine.search true engineNoIx "x" 0).length ≤ 0 ∧
    SearchEngine.search true engineZA "foo" 10 =
      [[("title", "foo"), ("path", "/z")], [("title", "foo"), ("path", "/a")]] ∧
    SearchEngine.search true engineZA "foo" 10 ≠
      [[("title", "foo"), ("path", "/a")], [("title", "foo"), ("path", "/z")]] := by
  refine ⟨?_, ?_, ?_, ?_⟩ <;> decide

/-- C4 (amended): for every query and every limit at least 1, `search`
returns at most `limit` results and never raises (it is a total function
into result lists); on a loaded index with a successfully parsed query the
results are the first `limit` ranked hits, and the ranked hit list is
sorted by `hitOrder` — non-increasing score, ties broken by ascending
docnum (insertion order), not by path.  In particular `search("", 10)` on
an empty or absent index returns at most 10 results. -/
theorem search_limit_and_order (wh : Bool) (e : SearchEngine) (q : String)
    (limit : Nat) (hl : 1 ≤ limit) :
    (SearchEngine.search wh e q limit).length ≤ limit ∧
    ∀ docs units, e.ix = some docs → wh = true → parseQuery q = some units →
      List.Sorted hitOrder (rankedHits docs units) ∧
      SearchEngine.search wh e q limit =
        ((rankedHits docs units).take limit).map hitDict := by
  constructor
  · unfold SearchEngine.search
    split
    · split
      · simp
      · rw [List.length_map, List.length_take]
        omega
    · simpa using hl
  · intro docs units hix hwh hpq
    subst hwh
    refine ⟨List.sorted_insertionSort hitOrder _, ?_⟩
    unfold SearchEngine.search
    rw [hix, hpq]

/-- Witness for C4 at the boundary input of the claim: the empty query with
limit 10 against an engine holding an empty index. -/
theorem search_limit_and_order_witness :
    1 ≤ 10 ∧
    ((SearchEngine.search true engineIx0 "" 10).length ≤ 10 ∧
      ∀ docs units, engineIx0.ix = some docs → true = true →
        parseQuery "" = some units →
        List.Sorted hitOrder (rankedHits docs units) ∧
        SearchEngine.search true engineIx0 "" 10 =
          ((rankedHits docs units).take 10).map hitDict) :=
  ⟨by decide, search_limit_and_order true engineIx0 "" 10 (by decide)⟩

/-- The world of the C5 counterexample: Whoosh imported, writable location,
a non-empty index already on disk. -/
def worldB1 : World := { whoosh := true, writable := true, store := .valid [docB1] }

/-- C5 counterexample: `create_index` against a location already holding a
non-empty index succeeds — no `AlreadyExists` failure — and leaves a fresh
empty index in place of the old one. -/
theorem create_index_overwrite_counterexample :
    worldB1.store = StoreOnDisk.valid [docB1] ∧
    engineB1.create_index worldB1 =
      .ok (engineIx0, { whoosh := true, writable := true, store := .valid [] }) := by
  exact ⟨rfl, rfl⟩

/-- C5 (amended): whenever Whoosh is importable, a directory is configured
and the location is writable, `create_index` succeeds unconditionally —
whatever was on disk, including a non-empty index, is silently replaced by
a fresh empty index (matching the method's own docstring, search.py lines
57-58). -/
theorem create_index_silently_replaces (e : SearchEngine) (w : World)
    (dir : String) (hw : w.whoosh = true) (hd : e.index_dir = some dir)
    (hwr : w.writable = true) :
    e.create_index w = .ok ({ e with ix := some [] }, { w with store := .valid [] }) := by
  unfold SearchEngine.create_index
  rw [hw, hd, hwr]
  simp

/-- Witness for C5 on a concrete writable world holding a prior index. -/
theorem create_index_silently_replaces_witness :
    worldB1.whoosh = true ∧ engineB1.index_dir = some "/i" ∧
    worldB1.writable = true ∧
    engineB1.create_index worldB1 =
      .ok ({ engineB1 with ix := some [] }, { worldB1 with store := .valid [] }) :=
  ⟨rfl, rfl, rfl, create_index_silently_replaces engineB1 worldB1 "/i" rfl rfl rfl⟩

/-- A world whose location holds files that do not parse as an index. -/
def worldCorrupt : World := { whoosh := true, writable := true, store := .corrupt }

/-- A world whose location holds no index at all. -/
def worldAbsent : World := { whoosh := true, writable := true, store := .absent }

/-- C6 counterexample: loading from a location with corrupt files produces
exactly the same outcome as loading from a location with no index — the
handle is left unset and the call succeeds — so no distinct `Corrupt`
outcome exists. -/
theorem load_index_corrupt_counterexample :
    SearchEngine.load_index { index_dir := some "/i", ix := none } worldCorrupt =
      SearchEngine.load_index { index_dir := some "/i", ix := none } worldAbsent ∧
    SearchEngine.load_index { index_dir := some "/i", ix := none } worldCorrupt =
      .ok { index_dir := some "/i", ix := none } := by
  exact ⟨rfl, rfl⟩

/-- C6 (amended): when files exist at the index location but do not parse
as an index, `load_index` catches the exception and leaves the handle
unset — the same outcome as an absent index, with no distinct `Corrupt`
report (search.py lines 111-114). -/
theorem load_index_corrupt_as_absent (e : SearchEngine) (w : World)
    (dir : String) (hw : w.whoosh = true) (hd : e.index_dir = some dir)
    (hs : w.store = .corrupt) :
    e.load_index w = .ok { e with ix := none } ∧
    e.load_index w = e.load_index { w with store := .absent } := by
  unfold SearchEngine.load_index
  rw [hw, hd, hs]
  simp

/-- Witness for C6 on a concrete corrupt world. -/
theorem load_index_corrupt_as_absent_witness :
    worldCorrupt.whoosh = true ∧ engineB1.index_dir = some "/i" ∧
    worldCorrupt.store = .corrupt ∧
    (engineB1.load_index worldCorrupt = .ok { engineB1 with ix := none } ∧
      engineB1.load_index worldCorrupt =
        engineB1.load_index { worldCorrupt with store := .absent }) :=
  ⟨rfl, rfl, rfl, load_index_corrupt_as_absent engineB1 worldCorrupt "/i" rfl rfl rfl⟩

/-- C7: round-trip over the store lifecycle — at a writable location
holding no index, a fresh engine has `has_index` false; `create_index`
succeeds and `has_index` becomes true; re-opening the location afterwards
(a fresh engine constructed on the updated world, which calls
`load_index`) yields a usable handle on the created empty index. -/
theorem create_open_roundtrip (dir : String) (w : World)
    (hw : w.whoosh = true) (hwr : w.writable = true) (hs : w.store = .absent) :
    ∃ e0 : SearchEngine, SearchEngine.init (some dir) w = .ok e0 ∧
      e0.has_index = false ∧
      ∃ e1 w1, e0.create_index w = .ok (e1, w1) ∧ e1.has_index = true ∧
        ∃ e2, SearchEngine.init (some dir) w1 = .ok e2 ∧
          e2.ix = some [] ∧ e2.has_index = true := by
  refine ⟨{ index_dir := some dir, ix := none }, ?_, rfl,
    { index_dir := some dir, ix := some [] }, { w with store := .valid [] },
    ?_, rfl, { index_dir := some dir, ix := some [] }, ?_, rfl, rfl⟩
  · unfold SearchEngine.init SearchEngine.load_index
    rw [hw, hs]
    simp
  · unfold SearchEngine.create_index
    rw [hw, hwr]
    simp
  · unfold SearchEngine.init SearchEngine.load_index
    rw [hw]
    simp

/-- Witness for C7 at a concrete fresh writable location. -/
theorem create_open_roundtrip_witness :
    worldAbsent.whoosh = true ∧ worldAbsent.writable = true ∧
    worldAbsent.store = .absent ∧
    (∃ e0 : SearchEngine, SearchEngine.init (some "/i") worldAbsent = .ok e0 ∧
      e0.has_index = false ∧
      ∃ e1 w1, e0.create_index worldAbsent = .ok (e1, w1) ∧ e1.has_index = true ∧
        ∃ e2, SearchEngine.init (some "/i") w1 = .ok e2 ∧
          e2.ix = some [] ∧ e2.has_index = true) :=
  ⟨rfl, rfl, rfl, create_open_roundtrip "/i" worldAbsent rfl rfl rfl⟩

/-- C8: the crawl emits a document only for regular files of the tree —
directories are traversed but never emitted — and every emitted document
has empty content (no file bodies are read). -/
theorem crawl_only_regular_files (directory : String) (cs : List FsEntry)
    (d : Doc) (hm : d ∈ crawlDocs directory (some cs)) :
    isFileAt directory cs d.path d.title ∧ d.content = "" := by
  unfold crawlDocs osWalk at hm
  rw [List.flatMap_cons, List.mem_append] at hm
  rcases hm with h | h
  · unfold tripleDocs at h
    rcases List.mem_map.mp h with ⟨fname, hf, rfl⟩
    exact ⟨.here (file_mem_of_fileNames hf), rfl⟩
  · exact crawlSubdirs_only_files directory cs d h

/-- Witness for C8 on a two-level tree with a file at each level. -/
theorem crawl_only_regular_files_witness :
    (({ path := joinPath "/r" "a.txt", title := "a.txt", content := "" } : Doc) ∈
      crawlDocs "/r" (some [FsEntry.file "a.txt", FsEntry.dir "sub" [FsEntry.file "b.txt"]])) ∧
    (isFileAt "/r" [FsEntry.file "a.txt", FsEntry.dir "sub" [FsEntry.file "b.txt"]]
      (Doc.path { path := joinPath "/r" "a.txt", title := "a.txt", content := "" })
      (Doc.title { path := joinPath "/r" "a.txt", title := "a.txt", content := "" }) ∧
      Doc.content { path := joinPath "/r" "a.txt", title := "a.txt", content := "" } = "") := by
  have hm : ({ path := joinPath "/r" "a.txt", title := "a.txt", content := "" } : Doc) ∈
      crawlDocs "/r" (some [FsEntry.file "a.txt", FsEntry.dir "sub" [FsEntry.file "b.txt"]]) := by
    simp [crawlDocs, osWalk, walkSubdirs, tripleDocs, fileNamesOf, dirNamesOf]
  exact ⟨hm, crawl_only_regular_files "/r" _ _ hm⟩

/-- C9 counterexample: a crawl over an inaccessible root (a root `os.walk`
silently yields nothing for, given its default `onerror=None`) completes
with success and an unchanged engine — no error of any kind reaches the
caller — while the claim demands a reported error alongside the empty
sequence. -/
theorem index_directory_inaccessible_counterexample :
    crawlDocs "/gone" none = [] ∧
    engineIx0.index_directory "/gone" none = .ok engineIx0 := by
  exact ⟨rfl, rfl⟩

/-- C9 (amended): a crawl over an inaccessible root yields an empty
document sequence and completes silently — `index_directory` returns
success with the engine unchanged and reports no error — and does not
crash. -/
theorem index_directory_inaccessible_silent (e : SearchEngine)
    (docs : List Doc) (directory : String) (h : e.ix = some docs) :
    crawlDocs directory none = [] ∧
    e.index_directory directory none = .ok e := by
  refine ⟨rfl, ?_⟩
  unfold SearchEngine.index_directory
  rw [h]
  rfl

/-- Witness for C9 on a concrete loaded engine. -/
theorem index_directory_inaccessible_silent_witness :
    engineB1.ix = some [docB1] ∧
    (crawlDocs "/gone" none = [] ∧
      engineB1.index_directory "/gone" none = .ok engineB1) :=
  ⟨rfl, index_directory_inaccessible_silent engineB1 [docB1] "/gone" rfl⟩
